import Mathlib

/-!
Verification of the ALS (Astro Live Stacker) core against its
natural-language specification.

The development shallowly embeds the relevant parts of the two source
modules, `als/io/input.py` and `als/logic.py`:

* the Bayer-pattern normalization loop of `_read_raw_image`;
* the session state machine of `Controller`
  (`start_session` / `stop_session` / `pause_session`);
* queue purging (`Controller.purge_queue`) and the stack-result handler
  (`Controller.on_new_stack_result`);
* the ingestion backpressure gate (`FolderScanner.wait_for_resources`);
* the scanner factory (`InputScanner.create_scanner`).

Python exceptions are modelled as explicit error values; mutation of the
shared runtime state (`DYNAMIC_DATA`) is modelled as explicit state
passing over a `ControllerState` record.  External collaborators
(filesystem, web setup, the scanner object itself) are modelled as
boolean outcome environments consumed exactly where the source consults
them.
-/

namespace ALS

/-- Error values a frame decode can produce.  `assertionError` models a
failed Python `assert` in `_read_raw_image`; `indexError` models a
Python out-of-range string subscript; `libRawNonFatalError` and
`libRawFatalError` model the two rawpy error classes the `imread` call
can raise (`src/als/io/input.py:14`).  `malformedBayerMetadata` is the
error class named by the specification for Bayer-contract violations; no
such class exists in the source, it is included here (modelled from the
spec) only so that statements can compare the source's actual error
against it. -/
inductive PyError
  | assertionError
  | indexError
  | libRawNonFatalError
  | libRawFatalError
  | malformedBayerMetadata
  deriving DecidableEq, Repr

/-- The per-position loop body of `_read_raw_image`
(`src/als/io/input.py:384-386`): for each `index` in the flattened
native index grid, `assert index < total` then append
`description[index]`.  `total` is `len(bayer_pattern_indices)`. -/
def bayer_loop (total : Nat) (desc : List Char) : List Nat → Except PyError (List Char)
  | [] => .ok []
  | index :: rest =>
    if index < total then
      if h : index < desc.length then
        match bayer_loop total desc rest with
        | .ok tail => .ok (desc.get ⟨index, h⟩ :: tail)
        | .error e => .error e
      else .error .indexError
    else .error .assertionError

/-- The Bayer normalization of `_read_raw_image`
(`src/als/io/input.py:382-386`): `assert len(indices) == len(description)`,
then build the canonical pattern character by character. -/
def compute_bayer_pattern (indices : List Nat) (description : String) :
    Except PyError String :=
  if indices.length = description.data.length then
    match bayer_loop indices.length description.data indices with
    | .ok chars => .ok (String.mk chars)
    | .error e => .error e
  else .error .assertionError

/-- A raw frame as seen by `_read_raw_image`: the flattened
`raw_image.raw_pattern` and the decoded `raw_image.color_desc`, plus an
opaque sample payload. -/
structure RawFrame where
  raw_pattern : List Nat
  color_desc : String
  samples : Nat
  deriving DecidableEq, Repr

/-- The image record produced by a successful decode: sample payload
plus the computed canonical bayer pattern. -/
structure DecodedImage where
  samples : Nat
  bayer_pattern : String
  deriving DecidableEq, Repr

/-- Decode of one raw frame, as far as the Bayer metadata is concerned
(`src/als/io/input.py:376-393`). -/
def decode_raw_frame (frame : RawFrame) : Except PyError DecodedImage :=
  match compute_bayer_pattern frame.raw_pattern frame.color_desc with
  | .ok pattern => .ok { samples := frame.samples, bayer_pattern := pattern }
  | .error e => .error e

/-- Outcome of a Python call: either a normal return (`returned`, whose
`none` is Python's `None`) or an exception unwinding out of the callee
(`raised`). -/
inductive ReadOutcome
  | returned (image : Option DecodedImage)
  | raised (e : PyError)
  deriving DecidableEq, Repr

/-- The exception classes caught by the `except` clauses of
`_read_raw_image` (`src/als/io/input.py:395-400`): exactly the two
LibRaw error classes, nothing else. -/
def caught_by_read_raw_handlers (e : PyError) : Bool :=
  match e with
  | .libRawNonFatalError => true
  | .libRawFatalError => true
  | _ => false

/-- The `try` body of `_read_raw_image`: the external `imread` call
either delivers the frame's sensor metadata or raises a LibRaw error;
on a delivered frame the Bayer normalization runs and may itself
raise. -/
def read_raw_image_body (imread_result : Except PyError RawFrame) :
    Except PyError DecodedImage :=
  match imread_result with
  | .error e => .error e
  | .ok frame => decode_raw_frame frame

/-- `_read_raw_image` (`src/als/io/input.py:320-400`) with its exception
handling: a caught LibRaw error is reported and the function returns
`None` — the single frame is dropped and processing continues; any other
exception raised in the `try` body propagates to the caller
(`read_disk_image` and the scanner event handlers install no handler for
it). -/
def read_raw_image (imread_result : Except PyError RawFrame) : ReadOutcome :=
  match read_raw_image_body imread_result with
  | .ok image => .returned (some image)
  | .error e =>
    if caught_by_read_raw_handlers e then .returned none else .raised e

theorem bayer_loop_ok (desc : List Char) :
    ∀ (l : List Nat), (∀ i ∈ l, i < desc.length) →
      ∃ out, bayer_loop desc.length desc l = .ok out ∧
        out.length = l.length ∧
        ∀ k, k < l.length → out.get? k = desc.get? (l.getD k 0) := by
  intro l h
  induction l with
  | nil => exact ⟨[], rfl, rfl, fun k hk => absurd hk (by simp)⟩
  | cons index rest ih =>
    have hidx : index < desc.length := h index (List.mem_cons_self _ _)
    obtain ⟨out, hout, hlen, hget⟩ := ih (fun i hi => h i (List.mem_cons_of_mem _ hi))
    refine ⟨desc.get ⟨index, hidx⟩ :: out, ?_, by simp [hlen], ?_⟩
    · simp only [bayer_loop, if_pos hidx, dif_pos hidx, hout]
    · intro k hk
      cases k with
      | zero => simp [List.get?_eq_get hidx]
      | succ k =>
        have hk' : k < rest.length := by simpa using hk
        simpa [List.getD] using hget k hk'

theorem bayer_loop_violation (desc : List Char) :
    ∀ (l : List Nat), (∃ i ∈ l, desc.length ≤ i) →
      bayer_loop desc.length desc l = .error .assertionError := by
  intro l hviol
  induction l with
  | nil => simp at hviol
  | cons index rest ih =>
    by_cases hlt : index < desc.length
    · obtain ⟨i, hi, hge⟩ := hviol
      rcases List.mem_cons.mp hi with heq | hmem
      · subst heq; omega
      · have hrest := ih ⟨i, hmem, hge⟩
        simp only [bayer_loop, if_pos hlt, dif_pos hlt, hrest]
    · simp only [bayer_loop, if_neg hlt]

/-- C1: for every native filter index grid and color-description string
satisfying the contract (equal lengths, every index below the cell
count), the computed canonical bayer pattern holds at position `k` the
character `description[indices[k]]`, read in row-major order of the
standardized 2x2 layout; in particular index grid `[0,1,3,2]` with
description `RGBG` yields `RGGB`. -/
theorem bayer_normalization_correct (indices : List Nat) (description : String)
    (hlen : indices.length = description.data.length)
    (hidx : ∀ i ∈ indices, i < indices.length) :
    (∃ out, compute_bayer_pattern indices description = .ok out ∧
      out.data.length = indices.length ∧
      ∀ k, k < indices.length →
        out.data.get? k = description.data.get? (indices.getD k 0)) ∧
    compute_bayer_pattern [0, 1, 3, 2] "RGBG" = .ok "RGGB" := by
  refine ⟨?_, rfl⟩
  have h' : ∀ i ∈ indices, i < description.data.length := fun i hi => hlen ▸ hidx i hi
  obtain ⟨out, hout, hl, hg⟩ := bayer_loop_ok description.data indices h'
  refine ⟨String.mk out, ?_, ?_, ?_⟩
  · simp only [compute_bayer_pattern, hlen, hout, eq_self_iff_true, if_true]
  · simpa [hlen] using hl
  · intro k hk
    exact hg k (by omega)

/-- Witness for C1 at the concrete contract-satisfying input
`[0,1,3,2]` / `RGBG`. -/
theorem bayer_normalization_correct_witness :
    ([0, 1, 3, 2] : List Nat).length = ("RGBG" : String).data.length ∧
    compute_bayer_pattern [0, 1, 3, 2] "RGBG" = .ok "RGGB" :=
  ⟨by decide,
    (bayer_normalization_correct [0, 1, 3, 2] "RGBG" (by decide)
      (by decide)).2⟩

/-- C6 counterexample: on a contract violation (here mismatched lengths,
`[0,1,3]` against `RGBG`), the source fails via a Python `assert`
(modelled `assertionError`), not via the `MalformedBayerMetadata` error
class the claim names — no such class exists in the source. -/
theorem bayer_violation_error_class_counterexample :
    compute_bayer_pattern [0, 1, 3] "RGBG" = .error .assertionError ∧
    (Except.error PyError.assertionError : Except PyError String) ≠
      .error .malformedBayerMetadata := by
  exact ⟨rfl, by simp⟩

theorem compute_bayer_pattern_violation (indices : List Nat) (description : String)
    (hviol : indices.length ≠ description.data.length ∨
      ∃ i ∈ indices, indices.length ≤ i) :
    compute_bayer_pattern indices description = .error .assertionError := by
  rcases hviol with hne | hex
  · simp only [compute_bayer_pattern, if_neg hne]
  · by_cases heq : indices.length = description.data.length
    · have := bayer_loop_violation description.data indices (heq ▸ hex)
      simp only [compute_bayer_pattern, heq, this, eq_self_iff_true, if_true]
    · simp only [compute_bayer_pattern, if_neg heq]

/-- C6 (amended): when the Bayer-normalization contract is violated
(mismatched lengths, or some index not below the grid cell count),
decoding fails with an assertion error; unlike the LibRaw errors, which
`_read_raw_image` catches, reports and converts into a dropped frame
(`None`) so that only the single frame is affected, the assertion error
is not among the classes its handlers catch, so it propagates uncaught
out of the frame decode and its effect is not confined to the single
frame by the decoder. -/
theorem bayer_violation_raises_uncaught (frame : RawFrame)
    (hviol : frame.raw_pattern.length ≠ frame.color_desc.data.length ∨
      ∃ i ∈ frame.raw_pattern, frame.raw_pattern.length ≤ i) :
    compute_bayer_pattern frame.raw_pattern frame.color_desc = .error .assertionError ∧
    read_raw_image (.ok frame) = .raised .assertionError ∧
    caught_by_read_raw_handlers .assertionError = false ∧
    read_raw_image (.error .libRawNonFatalError) = .returned none ∧
    read_raw_image (.error .libRawFatalError) = .returned none := by
  have h1 := compute_bayer_pattern_violation frame.raw_pattern frame.color_desc hviol
  refine ⟨h1, ?_, rfl, rfl, rfl⟩
  simp [read_raw_image, read_raw_image_body, decode_raw_frame, h1,
    caught_by_read_raw_handlers]

/-- A raw frame carrying contract-violating Bayer metadata: three
indices against a four-character description. -/
def bad_metadata_frame : RawFrame :=
  { raw_pattern := [0, 1, 3]
    color_desc := "RGBG"
    samples := 7 }

/-- Witness for the amended C6 at the concrete violating frame: the
decode raises the assertion error rather than returning a dropped
frame. -/
theorem bayer_violation_raises_uncaught_witness :
    compute_bayer_pattern [0, 1, 3] "RGBG" = .error .assertionError ∧
    read_raw_image (.ok bad_metadata_frame) = .raised .assertionError :=
  ⟨(bayer_violation_raises_uncaught bad_metadata_frame (Or.inl (by decide))).1,
    (bayer_violation_raises_uncaught bad_metadata_frame (Or.inl (by decide))).2.1⟩

/-- Session lifecycle status (`als.model.base.Session`, a single mutable
status value; modelled as an enumeration). -/
inductive SessionStatus
  | stopped
  | running
  | paused
  deriving DecidableEq, Repr

/-- The pipeline's in-memory frame representation (`als.model.base.Image`),
reduced to the fields the embedded operations touch: an opaque sample
payload plus provenance metadata. -/
structure Image where
  data : Nat
  bayer_pattern : String := ""
  origin : String := ""
  destination : Option String := none
  deriving DecidableEq, Repr

/-- Modelled from the spec: `Image.clone` (in `als.model.base`, not under
`src/`) produces an independent copy of a frame; under value semantics a
copy is the same value. -/
def clone (image : Image) : Image :=
  image

/-- Error kinds raised by `Controller.start_session`
(`src/src/als/logic.py:51-59`): `SessionError` and its subclass
`CriticalFolderMissing`. -/
inductive SessionErrorKind
  | sessionError
  | criticalFolderMissing
  deriving DecidableEq, Repr

/-- A structured session error: `AlsException` carries a `message`
(title) and `details`, as consumed at `src/src/als/logic.py:484-487`. -/
structure SessionError where
  kind : SessionErrorKind
  message : String
  details : String
  deriving DecidableEq, Repr

/-- The mutable state owned by `Controller` and `DYNAMIC_DATA` that the
session operations touch: session status, input-scanner state, the stack
accumulator, the four stage queues, and the cached last stacking
result.  `scannerGeneration` counts scanner creations
(`InputScanner.create_scanner` calls), so that "no new scanner is
created" is expressible. -/
structure ControllerState where
  sessionStatus : SessionStatus
  scannerCreated : Bool
  scannerRunning : Bool
  scannerGeneration : Nat
  hasNewWarnings : Bool
  stackerCount : Nat
  stackerResult : Option Image
  preProcessQueue : List Image
  stackerQueue : List Image
  postProcessQueue : List Image
  saveQueue : List Image
  lastStackingResult : Option Image
  deriving DecidableEq, Repr

/-- The state set up by `Controller.__init__`
(`src/src/als/logic.py:74-138`): session stopped, no scanner, busy flags
clear, all queues empty, no stacking result. -/
def initial_state : ControllerState :=
  { sessionStatus := .stopped
    scannerCreated := false
    scannerRunning := false
    scannerGeneration := 0
    hasNewWarnings := false
    stackerCount := 0
    stackerResult := none
    preProcessQueue := []
    stackerQueue := []
    postProcessQueue := []
    saveQueue := []
    lastStackingResult := none }

/-- `Controller.purge_queue` (`src/src/als/logic.py:550-561`):
`while not queue.empty(): queue.get()`. -/
def purge_queue : List Image → List Image
  | [] => []
  | _ :: rest => purge_queue rest

theorem purge_queue_eq_nil (q : List Image) : purge_queue q = [] := by
  induction q with
  | nil => rfl
  | cons x rest ih => simpa [purge_queue] using ih

/-- Filesystem facts `start_session` consults when starting from
`stopped` (`src/src/als/logic.py:448-459`): the configured scan, work
and web folder paths and whether each exists as a directory. -/
structure FolderEnv where
  scan_folder_path : String
  work_folder_path : String
  web_folder_path : String
  scan_folder_exists : Bool
  work_folder_exists : Bool
  web_folder_exists : Bool
  deriving DecidableEq, Repr

/-- Outcomes of the two external startup actions `start_session`
performs on every path (`src/src/als/logic.py:465-476`): web-content
setup and `input_scanner.start()`, each of which may fail with a
message. -/
structure StartEnv where
  web_setup_ok : Bool
  web_setup_error : String
  scanner_start_ok : Bool
  scanner_start_error : String
  deriving DecidableEq, Repr

/-- The `CriticalFolderMissing(title, message)` raised at
`src/src/als/logic.py:457-459`. -/
def critical_folder_missing (role path : String) : SessionError :=
  { kind := .criticalFolderMissing
    message := "Missing critical folder"
    details := "Your currently configured " ++ role ++ " folder '" ++ path ++ "' is missing." }

/-- The folder-presence loop of `start_session`
(`src/src/als/logic.py:448-459`): the scan, work and web folders are
checked in insertion order and the first missing one raises. -/
def folder_check (folders : FolderEnv) : Option SessionError :=
  if folders.scan_folder_exists = false then
    some (critical_folder_missing "scan" folders.scan_folder_path)
  else if folders.work_folder_exists = false then
    some (critical_folder_missing "work" folders.work_folder_path)
  else if folders.web_folder_exists = false then
    some (critical_folder_missing "web" folders.web_folder_path)
  else none

/-- The tail of `start_session` common to both the fresh-start and the
restart-from-pause paths (`src/src/als/logic.py:465-482`): set up web
content (an `OSError` becomes a `SessionError`), start the input scanner
(a `ScannerStartError` becomes a `SessionError`), then set the session
status to `running`.  The returned pair is the post state and the raised
error, if any. -/
def start_session_tail (ext : StartEnv) (s : ControllerState) :
    ControllerState × Option SessionError :=
  if ext.web_setup_ok = false then
    (s, some { kind := .sessionError
               message := "Web folder could not be prepared"
               details := ext.web_setup_error })
  else if ext.scanner_start_ok = false then
    (s, some { kind := .sessionError
               message := "Input scanner could not start"
               details := ext.scanner_start_error })
  else
    ({ s with scannerRunning := true, sessionStatus := .running }, none)

/-- `Controller.start_session` (`src/src/als/logic.py:432-488`).  When
the session is `stopped`: create a fresh input scanner, clear the
warnings flag, reset the stacker (`self._stacker.reset()`; `Stacker` is
outside `src/`, its reset is modelled from the spec as clearing the
accumulator to empty with count zero), then check the scan/work/web
folders, raising `CriticalFolderMissing` on the first missing one.
Otherwise (restart after pause) all of that is skipped.  Both paths then
run `start_session_tail`.  State mutations made before a raise persist,
as they do across a Python exception. -/
def start_session (folders : FolderEnv) (ext : StartEnv) (s : ControllerState) :
    ControllerState × Option SessionError :=
  if s.sessionStatus = .stopped then
    let s1 : ControllerState :=
      { s with scannerCreated := true
               scannerGeneration := s.scannerGeneration + 1
               hasNewWarnings := false
               stackerCount := 0
               stackerResult := none }
    match folder_check folders with
    | some e => (s1, some e)
    | none => start_session_tail ext s1
  else
    start_session_tail ext s

/-- `Controller.stop_session` (`src/src/als/logic.py:490-501`): when the
session is not `stopped`, set status to `stopped`, stop the input
scanner, and purge the pre-process, stacker and post-process queues. -/
def stop_session (s : ControllerState) : ControllerState :=
  if s.sessionStatus = .stopped then s
  else
    let s1 := { s with sessionStatus := SessionStatus.stopped }
    let s2 := { s1 with scannerRunning := false }
    let s3 := { s2 with preProcessQueue := purge_queue s2.preProcessQueue }
    let s4 := { s3 with stackerQueue := purge_queue s3.stackerQueue }
    { s4 with postProcessQueue := purge_queue s4.postProcessQueue }

/-- `Controller.pause_session` (`src/src/als/logic.py:503-511`): stop
the input scanner only if the session is `running`, then
unconditionally set the status to `paused`. -/
def pause_session (s : ControllerState) : ControllerState :=
  let s1 := if s.sessionStatus = .running then { s with scannerRunning := false } else s
  { s1 with sessionStatus := SessionStatus.paused }

/-- `Controller.on_new_stack_result` (`src/src/als/logic.py:290-302`):
tag the image's origin, cache a clone as the last stacking result, purge
the post-process queue, then put a clone of the image on it. -/
def on_new_stack_result (s : ControllerState) (image : Image) : ControllerState :=
  let tagged := { image with origin := "Stacking result" }
  let s1 := { s with lastStackingResult := some (clone tagged) }
  let s2 := { s1 with postProcessQueue := purge_queue s1.postProcessQueue }
  { s2 with postProcessQueue := s2.postProcessQueue ++ [clone tagged] }

theorem start_session_tail_preserves (ext : StartEnv) (s : ControllerState) :
    (start_session_tail ext s).1.stackerCount = s.stackerCount ∧
    (start_session_tail ext s).1.stackerResult = s.stackerResult ∧
    (start_session_tail ext s).1.scannerGeneration = s.scannerGeneration ∧
    (start_session_tail ext s).1.scannerCreated = s.scannerCreated ∧
    (start_session_tail ext s).1.preProcessQueue = s.preProcessQueue ∧
    (start_session_tail ext s).1.stackerQueue = s.stackerQueue ∧
    (start_session_tail ext s).1.postProcessQueue = s.postProcessQueue ∧
    (start_session_tail ext s).1.saveQueue = s.saveQueue ∧
    (start_session_tail ext s).1.lastStackingResult = s.lastStackingResult := by
  unfold start_session_tail
  split
  · simp
  · split <;> simp

/-- A sample frame used by the concrete counterexamples. -/
def img0 : Image :=
  { data := 0 }

/-- A controller state with an accumulated stack (3 frames folded) and a
stopped session, as obtained after a session has run and been stopped. -/
def accumulated_stopped_state : ControllerState :=
  { initial_state with stackerCount := 3, stackerResult := some img0 }

/-- A folder environment in which all three critical folders exist. -/
def folders_ok : FolderEnv :=
  { scan_folder_path := "/scan"
    work_folder_path := "/work"
    web_folder_path := "/web"
    scan_folder_exists := true
    work_folder_exists := true
    web_folder_exists := true }

/-- A startup environment in which web setup and scanner start succeed. -/
def ext_ok : StartEnv :=
  { web_setup_ok := true
    web_setup_error := ""
    scanner_start_ok := true
    scanner_start_error := "" }

/-- C2: the claim that no stopped to paused transition exists is right
and the code is wrong: `pause_session` invoked on the freshly
constructed controller state, whose session status is `stopped`,
unconditionally sets the status to `paused` — a stopped to paused
transition that is neither a no-op nor an error. -/
theorem pause_from_stopped_reaches_paused :
    initial_state.sessionStatus = SessionStatus.stopped ∧
    (pause_session initial_state).sessionStatus = SessionStatus.paused :=
  ⟨rfl, rfl⟩

/-- C3 counterexample: starting a new session from `stopped` does clear
the accumulator — `start_session` invokes the stacker's reset before the
folder checks, so a state holding 3 accumulated frames comes out of a
successful fresh start with count 0 and no result. -/
theorem start_clears_accumulator_counterexample :
    accumulated_stopped_state.stackerCount = 3 ∧
    accumulated_stopped_state.sessionStatus = SessionStatus.stopped ∧
    (start_session folders_ok ext_ok accumulated_stopped_state).1.stackerCount = 0 ∧
    (start_session folders_ok ext_ok accumulated_stopped_state).1.stackerResult = none ∧
    (start_session folders_ok ext_ok accumulated_stopped_state).2 = none :=
  ⟨rfl, rfl, rfl, rfl, rfl⟩

/-- C3 (amended): stopping a session never clears the stack accumulator
and restarting from `paused` leaves it unchanged, but starting a session
from `stopped` automatically resets the accumulator (even when startup
later fails); apart from that automatic reset at fresh start, an
explicit `reset()` is the only way to discard accumulated state. -/
theorem accumulator_reset_policy (folders : FolderEnv) (ext : StartEnv)
    (s : ControllerState) :
    ((stop_session s).stackerCount = s.stackerCount ∧
     (stop_session s).stackerResult = s.stackerResult) ∧
    (s.sessionStatus = SessionStatus.stopped →
      (start_session folders ext s).1.stackerCount = 0 ∧
      (start_session folders ext s).1.stackerResult = none) ∧
    (s.sessionStatus = SessionStatus.paused →
      (start_session folders ext s).1.stackerCount = s.stackerCount ∧
      (start_session folders ext s).1.stackerResult = s.stackerResult) := by
  refine ⟨?_, ?_, ?_⟩
  · by_cases h : s.sessionStatus = SessionStatus.stopped <;> simp [stop_session, h]
  · intro h
    simp only [start_session, if_pos h]
    cases hfc : folder_check folders with
    | some e => simp
    | none =>
      have := start_session_tail_preserves ext
        { s with scannerCreated := true
                 scannerGeneration := s.scannerGeneration + 1
                 hasNewWarnings := false
                 stackerCount := 0
                 stackerResult := none }
      exact ⟨this.1, this.2.1⟩
  · intro h
    have hne : ¬ s.sessionStatus = SessionStatus.stopped := by simp [h]
    simp only [start_session, if_neg hne]
    exact ⟨(start_session_tail_preserves ext s).1, (start_session_tail_preserves ext s).2.1⟩

/-- Witness for the amended C3 at the concrete accumulated, stopped
state: the fresh start resets the count to 0 and the stop branch keeps
the count. -/
theorem accumulator_reset_policy_witness :
    accumulated_stopped_state.sessionStatus = SessionStatus.stopped ∧
    (start_session folders_ok ext_ok accumulated_stopped_state).1.stackerCount = 0 ∧
    (start_session folders_ok ext_ok accumulated_stopped_state).1.stackerResult = none :=
  ⟨rfl, ((accumulator_reset_policy folders_ok ext_ok accumulated_stopped_state).2.1 rfl).1,
    ((accumulator_reset_policy folders_ok ext_ok accumulated_stopped_state).2.1 rfl).2⟩

/-- A running session with one image pending on each queue, including
the save queue. -/
def running_loaded_state : ControllerState :=
  { initial_state with
      sessionStatus := SessionStatus.running
      scannerCreated := true
      scannerRunning := true
      scannerGeneration := 1
      preProcessQueue := [img0]
      stackerQueue := [img0]
      postProcessQueue := [img0]
      saveQueue := [img0] }

/-- C4 counterexample: `stop_session` does not purge every queue — the
save queue keeps its pending item after a stop from `running`. -/
theorem stop_session_save_queue_counterexample :
    running_loaded_state.sessionStatus = SessionStatus.running ∧
    (stop_session running_loaded_state).saveQueue = [img0] ∧
    (stop_session running_loaded_state).saveQueue ≠ [] :=
  ⟨rfl, rfl, by intro h; exact List.noConfusion h⟩

/-- C4 (amended): `stop_session`, invoked while the session is running
or paused, sets the status to `stopped`, stops ingestion, and purges the
pre-process, stacker and post-process queues, each left empty; the save
queue is not purged. -/
theorem stop_session_behavior (s : ControllerState)
    (h : s.sessionStatus = SessionStatus.running ∨ s.sessionStatus = SessionStatus.paused) :
    (stop_session s).sessionStatus = SessionStatus.stopped ∧
    (stop_session s).scannerRunning = false ∧
    (stop_session s).preProcessQueue = [] ∧
    (stop_session s).stackerQueue = [] ∧
    (stop_session s).postProcessQueue = [] ∧
    (stop_session s).saveQueue = s.saveQueue := by
  have hne : ¬ s.sessionStatus = SessionStatus.stopped := by
    rcases h with h | h <;> simp [h]
  simp [stop_session, hne, purge_queue_eq_nil]

/-- Witness for the amended C4 at the concrete loaded running state. -/
theorem stop_session_behavior_witness :
    (running_loaded_state.sessionStatus = SessionStatus.running ∨
      running_loaded_state.sessionStatus = SessionStatus.paused) ∧
    (stop_session running_loaded_state).sessionStatus = SessionStatus.stopped ∧
    (stop_session running_loaded_state).preProcessQueue = [] :=
  ⟨Or.inl rfl,
    (stop_session_behavior running_loaded_state (Or.inl rfl)).1,
    (stop_session_behavior running_loaded_state (Or.inl rfl)).2.2.1⟩

theorem critical_folder_missing_details_len (role path : String) :
    0 < (critical_folder_missing role path).details.length := by
  have h26 : ("Your currently configured " : String).length = 26 := rfl
  simp only [critical_folder_missing, String.length_append]
  omega

theorem folder_check_missing (folders : FolderEnv)
    (h : folders.scan_folder_exists = false ∨ folders.work_folder_exists = false ∨
      folders.web_folder_exists = false) :
    ∃ role path, folder_check folders = some (critical_folder_missing role path) := by
  unfold folder_check
  by_cases h1 : folders.scan_folder_exists = false
  · exact ⟨"scan", folders.scan_folder_path, by simp [h1]⟩
  by_cases h2 : folders.work_folder_exists = false
  · exact ⟨"work", folders.work_folder_path, by simp [h1, h2]⟩
  by_cases h3 : folders.web_folder_exists = false
  · exact ⟨"web", folders.web_folder_path, by simp [h1, h2, h3]⟩
  · rcases h with h | h | h <;> simp_all

/-- A paused session whose scanner exists but is stopped, with work
accumulated, as obtained by pausing a running session. -/
def paused_state : ControllerState :=
  { initial_state with
      sessionStatus := SessionStatus.paused
      scannerCreated := true
      scannerRunning := false
      scannerGeneration := 1
      stackerCount := 2
      stackerResult := some img0
      lastStackingResult := some img0
      preProcessQueue := [img0]
      stackerQueue := [img0]
      postProcessQueue := [img0]
      saveQueue := [img0] }

/-- A startup environment where web setup succeeds but the input scanner
fails to start. -/
def ext_scanner_fails : StartEnv :=
  { web_setup_ok := true
    web_setup_error := ""
    scanner_start_ok := false
    scanner_start_error := "boom" }

/-- C7 counterexample: when `start_session` is invoked on a paused
session and the ingestion source fails to start, the operation raises a
structured error but the session stays `paused`, not `stopped`, refuting
the claim that the session "remains in (or returns to) stopped". -/
theorem start_failure_from_paused_counterexample :
    paused_state.sessionStatus = SessionStatus.paused ∧
    (start_session folders_ok ext_scanner_fails paused_state).2 =
      some { kind := SessionErrorKind.sessionError
             message := "Input scanner could not start"
             details := "boom" } ∧
    (start_session folders_ok ext_scanner_fails paused_state).1.sessionStatus =
      SessionStatus.paused ∧
    SessionStatus.paused ≠ SessionStatus.stopped :=
  ⟨rfl, rfl, rfl, by intro h; exact SessionStatus.noConfusion h⟩

/-- C7 (amended): if a required working directory (scan, work or web) is
missing, or the ingestion source fails to start, `start_session` fails
with a structured error carrying a title and details, the input scanner
is not left running by the failed start, and the session status is
unchanged — in particular it remains `stopped` when the start was from
`stopped` (a restart from `paused` remains `paused`); the error is fatal
to the start operation only. -/
theorem start_session_failure_handling (folders : FolderEnv) (ext : StartEnv)
    (s : ControllerState) :
    (s.sessionStatus = SessionStatus.stopped →
      (folders.scan_folder_exists = false ∨ folders.work_folder_exists = false ∨
        folders.web_folder_exists = false) →
      ∃ e, (start_session folders ext s).2 = some e ∧
        e.kind = SessionErrorKind.criticalFolderMissing ∧
        e.message = "Missing critical folder" ∧
        0 < e.details.length ∧
        (start_session folders ext s).1.sessionStatus = SessionStatus.stopped ∧
        (start_session folders ext s).1.scannerRunning = s.scannerRunning) ∧
    (folder_check folders = none → ext.web_setup_ok = true →
      ext.scanner_start_ok = false →
      ∃ e, (start_session folders ext s).2 = some e ∧
        e.kind = SessionErrorKind.sessionError ∧
        e.message = "Input scanner could not start" ∧
        e.details = ext.scanner_start_error ∧
        (start_session folders ext s).1.sessionStatus = s.sessionStatus ∧
        (start_session folders ext s).1.scannerRunning = s.scannerRunning) := by
  constructor
  · intro hs hmiss
    obtain ⟨role, path, hfc⟩ := folder_check_missing folders hmiss
    refine ⟨critical_folder_missing role path, ?_, rfl, rfl,
      critical_folder_missing_details_len role path, ?_, ?_⟩ <;>
      simp [start_session, hs, hfc]
  · intro hfc hweb hscan
    refine ⟨{ kind := SessionErrorKind.sessionError
              message := "Input scanner could not start"
              details := ext.scanner_start_error }, ?_⟩
    by_cases hs : s.sessionStatus = SessionStatus.stopped <;>
      simp [start_session, hs, hfc, start_session_tail, hweb, hscan]

/-- A folder environment whose scan folder is missing. -/
def folders_scan_missing : FolderEnv :=
  { folders_ok with scan_folder_exists := false }

/-- Witness for the amended C7: starting from the initial stopped state
with the scan folder missing fails with a critical-folder error and
leaves the session stopped. -/
theorem start_session_failure_handling_witness :
    initial_state.sessionStatus = SessionStatus.stopped ∧
    folders_scan_missing.scan_folder_exists = false ∧
    ∃ e, (start_session folders_scan_missing ext_ok initial_state).2 = some e ∧
      e.kind = SessionErrorKind.criticalFolderMissing ∧
      e.message = "Missing critical folder" ∧
      0 < e.details.length ∧
      (start_session folders_scan_missing ext_ok initial_state).1.sessionStatus =
        SessionStatus.stopped ∧
      (start_session folders_scan_missing ext_ok initial_state).1.scannerRunning =
        initial_state.scannerRunning :=
  ⟨rfl, rfl,
    (start_session_failure_handling folders_scan_missing ext_ok initial_state).1
      rfl (Or.inl rfl)⟩

/-- C8: `start_session` while the session is paused restarts ingestion
only: no queue is purged, the stack accumulator is not reset, no new
scanner is created, and the fresh-session folder checks are not
performed (the outcome does not depend on the folder environment at
all); when web setup and scanner start succeed, the scanner is running
again and the session status becomes `running`. -/
theorem start_from_paused_restarts_only (folders : FolderEnv) (ext : StartEnv)
    (s : ControllerState) (h : s.sessionStatus = SessionStatus.paused) :
    (start_session folders ext s).1.preProcessQueue = s.preProcessQueue ∧
    (start_session folders ext s).1.stackerQueue = s.stackerQueue ∧
    (start_session folders ext s).1.postProcessQueue = s.postProcessQueue ∧
    (start_session folders ext s).1.saveQueue = s.saveQueue ∧
    (start_session folders ext s).1.stackerCount = s.stackerCount ∧
    (start_session folders ext s).1.stackerResult = s.stackerResult ∧
    (start_session folders ext s).1.scannerGeneration = s.scannerGeneration ∧
    (∀ folders2, start_session folders2 ext s = start_session folders ext s) ∧
    (ext.web_setup_ok = true → ext.scanner_start_ok = true →
      (start_session folders ext s).1.scannerRunning = true ∧
      (start_session folders ext s).1.sessionStatus = SessionStatus.running) := by
  have hne : ¬ s.sessionStatus = SessionStatus.stopped := by simp [h]
  have hpres := start_session_tail_preserves ext s
  have heq : start_session folders ext s = start_session_tail ext s := by
    simp [start_session, hne]
  refine ⟨?_, ?_, ?_, ?_, ?_, ?_, ?_, ?_, ?_⟩
  · rw [heq]; exact hpres.2.2.2.2.1
  · rw [heq]; exact hpres.2.2.2.2.2.1
  · rw [heq]; exact hpres.2.2.2.2.2.2.1
  · rw [heq]; exact hpres.2.2.2.2.2.2.2.1
  · rw [heq]; exact hpres.1
  · rw [heq]; exact hpres.2.1
  · rw [heq]; exact hpres.2.2.1
  · intro folders2; rw [heq]; simp [start_session, hne]
  · intro hweb hscan
    rw [heq]
    simp [start_session_tail, hweb, hscan]

/-- Witness for C8 at the concrete paused state with a successful
startup environment. -/
theorem start_from_paused_restarts_only_witness :
    paused_state.sessionStatus = SessionStatus.paused ∧
    (start_session folders_ok ext_ok paused_state).1.stackerCount =
      paused_state.stackerCount ∧
    (start_session folders_ok ext_ok paused_state).1.preProcessQueue =
      paused_state.preProcessQueue :=
  ⟨rfl,
    (start_from_paused_restarts_only folders_ok ext_ok paused_state rfl).2.2.2.2.1,
    (start_from_paused_restarts_only folders_ok ext_ok paused_state rfl).1⟩

/-- C9: every new stacking result purges the post-process queue's
pending content and replaces it with a clone of the fresh result: after
`on_new_stack_result` the post-process queue holds exactly that one
item, all previously queued post-process work is discarded, the clone is
cached as the last stacking result, and the other queues are
untouched. -/
theorem stack_result_replaces_post_process_queue (s : ControllerState) (image : Image) :
    (on_new_stack_result s image).postProcessQueue =
      [clone { image with origin := "Stacking result" }] ∧
    (on_new_stack_result s image).postProcessQueue.length = 1 ∧
    (on_new_stack_result s image).lastStackingResult =
      some (clone { image with origin := "Stacking result" }) ∧
    (on_new_stack_result s image).preProcessQueue = s.preProcessQueue ∧
    (on_new_stack_result s image).stackerQueue = s.stackerQueue ∧
    (on_new_stack_result s image).saveQueue = s.saveQueue := by
  simp [on_new_stack_result, purge_queue_eq_nil]

/-- One poll-instant observation of the shared indicators
`FolderScanner.wait_for_resources` consults
(`src/src/als/io/input.py:245-247`): the session-stopped test, the two
busy flags and the two queue sizes from `DYNAMIC_DATA`. -/
structure GateObs where
  session_stopped : Bool
  stacker_busy : Bool
  pre_processor_busy : Bool
  stacker_queue_size : Nat
  pre_process_queue_size : Nat
  deriving DecidableEq, Repr

/-- The loop guard of `wait_for_resources`: keep waiting while the
session is not stopped and the stacker is busy, the pre-processor is
busy, the stacker queue is non-empty or the pre-process queue is
non-empty. -/
def gate_guard (o : GateObs) : Bool :=
  (!o.session_stopped) &&
    (o.stacker_busy || o.pre_processor_busy ||
      decide (0 < o.stacker_queue_size) || decide (0 < o.pre_process_queue_size))

/-- `FolderScanner.wait_for_resources` (`src/src/als/io/input.py:237-249`),
fuel-indexed over a sequence of observations: the calling thread reads
the shared indicators at successive poll instants `t`, sleeping a fixed
interval (1 second in the source) between polls, and returns at the
first instant whose observation clears the guard; `none` means the guard
was still set after `fuel` polls. -/
def wait_for_resources (obs : Nat → GateObs) : Nat → Nat → Option Nat
  | _, 0 => none
  | t, fuel + 1 =>
    if gate_guard (obs t) = true then wait_for_resources obs (t + 1) fuel
    else some t

theorem gate_guard_eq_false_iff (o : GateObs) :
    gate_guard o = false ↔
      (o.session_stopped = true ∨
        (o.stacker_busy = false ∧ o.pre_processor_busy = false ∧
          o.stacker_queue_size = 0 ∧ o.pre_process_queue_size = 0)) := by
  cases hs : o.session_stopped <;> cases hb1 : o.stacker_busy <;>
    cases hb2 : o.pre_processor_busy <;> simp [gate_guard, hs, hb1, hb2] <;> omega

theorem gate_guard_eq_true_iff (o : GateObs) :
    gate_guard o = true ↔
      (o.session_stopped = false ∧
        (o.stacker_busy = true ∨ o.pre_processor_busy = true ∨
          0 < o.stacker_queue_size ∨ 0 < o.pre_process_queue_size)) := by
  cases hs : o.session_stopped <;> cases hb1 : o.stacker_busy <;>
    cases hb2 : o.pre_processor_busy <;> simp [gate_guard, hs, hb1, hb2] <;> omega

theorem wait_for_resources_sound (obs : Nat → GateObs) :
    ∀ (fuel t n : Nat), wait_for_resources obs t fuel = some n →
      t ≤ n ∧ gate_guard (obs n) = false ∧
      ∀ m, t ≤ m → m < n → gate_guard (obs m) = true := by
  intro fuel
  induction fuel with
  | zero => intro t n h; exact absurd h (by simp [wait_for_resources])
  | succ fuel ih =>
    intro t n h
    by_cases hg : gate_guard (obs t) = true
    · have h2 : wait_for_resources obs (t + 1) fuel = some n := by
        simpa [wait_for_resources, hg] using h
      obtain ⟨hle, hend, hmid⟩ := ih (t + 1) n h2
      refine ⟨by omega, hend, ?_⟩
      intro m hm1 hm2
      rcases Nat.eq_or_lt_of_le hm1 with heq | hlt
      · exact heq ▸ hg
      · exact hmid m hlt hm2
    · have hgf : gate_guard (obs t) = false := by simpa using hg
      have hn : t = n := by simpa [wait_for_resources, hgf] using h
      subst hn
      exact ⟨Nat.le_refl t, hgf, fun m hm1 hm2 => absurd (Nat.lt_of_le_of_lt hm1 hm2)
        (Nat.lt_irrefl t)⟩

theorem wait_for_resources_complete (obs : Nat → GateObs) (n : Nat) :
    ∀ (fuel t : Nat), t ≤ n → n - t < fuel →
      gate_guard (obs n) = false →
      (∀ m, t ≤ m → m < n → gate_guard (obs m) = true) →
      wait_for_resources obs t fuel = some n := by
  intro fuel
  induction fuel with
  | zero => intro t _ hfuel _ _; omega
  | succ fuel ih =>
    intro t ht hfuel hend hmid
    rcases Nat.eq_or_lt_of_le ht with heq | hlt
    · subst heq
      simp [wait_for_resources, hend]
    · have hg : gate_guard (obs t) = true := hmid t (Nat.le_refl t) hlt
      have := ih (t + 1) hlt (by omega) hend
        (fun m hm1 hm2 => hmid m (by omega) hm2)
      simpa [wait_for_resources, hg] using this

/-- C5: the backpressure gate returns exactly when the session is
stopped or all downstream indicators are clear (pre-process queue empty,
stacker queue empty, pre-processor not busy, stacker not busy): whenever
the polling loop returns at instant `n`, the observation at `n` is
stopped-or-clear and at every earlier poll the session was not stopped
and some indicator was set; conversely, if the first stopped-or-clear
observation is at instant `n`, the loop (given enough polls) returns
exactly at `n`. -/
theorem backpressure_gate_returns_iff_clear (obs : Nat → GateObs) :
    (∀ fuel n, wait_for_resources obs 0 fuel = some n →
      ((obs n).session_stopped = true ∨
        ((obs n).stacker_busy = false ∧ (obs n).pre_processor_busy = false ∧
          (obs n).stacker_queue_size = 0 ∧ (obs n).pre_process_queue_size = 0)) ∧
      ∀ m, m < n → (obs m).session_stopped = false ∧
        ((obs m).stacker_busy = true ∨ (obs m).pre_processor_busy = true ∨
          0 < (obs m).stacker_queue_size ∨ 0 < (obs m).pre_process_queue_size)) ∧
    (∀ n, ((obs n).session_stopped = true ∨
        ((obs n).stacker_busy = false ∧ (obs n).pre_processor_busy = false ∧
          (obs n).stacker_queue_size = 0 ∧ (obs n).pre_process_queue_size = 0)) →
      (∀ m, m < n → (obs m).session_stopped = false ∧
        ((obs m).stacker_busy = true ∨ (obs m).pre_processor_busy = true ∨
          0 < (obs m).stacker_queue_size ∨ 0 < (obs m).pre_process_queue_size)) →
      ∀ fuel, n < fuel → wait_for_resources obs 0 fuel = some n) := by
  constructor
  · intro fuel n h
    obtain ⟨_, hend, hmid⟩ := wait_for_resources_sound obs fuel 0 n h
    exact ⟨(gate_guard_eq_false_iff (obs n)).mp hend,
      fun m hm => (gate_guard_eq_true_iff (obs m)).mp (hmid m (Nat.zero_le m) hm)⟩
  · intro n hend hmid fuel hfuel
    exact wait_for_resources_complete obs n fuel 0 (Nat.zero_le n) (by omega)
      ((gate_guard_eq_false_iff (obs n)).mpr hend)
      (fun m _ hm2 => (gate_guard_eq_true_iff (obs m)).mpr (hmid m hm2))

/-- An observation with downstream work pending and the session live. -/
def gate_obs_busy : GateObs :=
  { session_stopped := false
    stacker_busy := true
    pre_processor_busy := false
    stacker_queue_size := 1
    pre_process_queue_size := 0 }

/-- An observation taken after the session has been stopped, downstream
still busy. -/
def gate_obs_stopped : GateObs :=
  { session_stopped := true
    stacker_busy := true
    pre_processor_busy := false
    stacker_queue_size := 1
    pre_process_queue_size := 0 }

/-- A poll trace in which downstream work is pending at instants 0 and 1
and the session is stopped from instant 2 on. -/
def gate_trace (t : Nat) : GateObs :=
  if t < 2 then gate_obs_busy else gate_obs_stopped

/-- Witness for C5 on the concrete trace: the gate returns at the first
stopped instant, 2, and that observation is stopped-or-clear. -/
theorem backpressure_gate_returns_iff_clear_witness :
    wait_for_resources gate_trace 0 5 = some 2 ∧
    ((gate_trace 2).session_stopped = true ∨
      ((gate_trace 2).stacker_busy = false ∧ (gate_trace 2).pre_processor_busy = false ∧
        (gate_trace 2).stacker_queue_size = 0 ∧ (gate_trace 2).pre_process_queue_size = 0)) :=
  ⟨by rfl, ((backpressure_gate_returns_iff_clear gate_trace).1 5 2 (by rfl)).1⟩

/-- `SCANNER_TYPE_FILESYSTEM` (`src/src/als/io/input.py:32`). -/
def SCANNER_TYPE_FILESYSTEM : String := "FS"

/-- `SCANNER_TYPE_INDI` (`src/src/als/io/input.py:33`). -/
def SCANNER_TYPE_INDI : String := "INDI"

/-- The two concrete scanner classes the factory can instantiate. -/
inductive ScannerKind
  | folderScanner
  | indiScanner
  deriving DecidableEq, Repr

/-- `InputScanner.create_scanner` (`src/src/als/io/input.py:88-109`):
`"FS"` yields a `FolderScanner`, `"INDI"` an `IndiScanner`, any other
string raises `ValueError` (modelled as the error message); the
parameter default is `SCANNER_TYPE_INDI`. -/
def create_scanner (scanner_type : String := SCANNER_TYPE_INDI) :
    Except String ScannerKind :=
  if scanner_type = SCANNER_TYPE_FILESYSTEM then .ok .folderScanner
  else if scanner_type = SCANNER_TYPE_INDI then .ok .indiScanner
  else .error ("Unsupported scanner type : " ++ scanner_type)

/-- C10: `create_scanner` returns the filesystem scanner for `"FS"`, the
INDI scanner for `"INDI"`, raises `ValueError` for every other string,
and when called with no argument defaults to the INDI scanner type
`"INDI"`. -/
theorem create_scanner_cases :
    create_scanner "FS" = .ok ScannerKind.folderScanner ∧
    create_scanner "INDI" = .ok ScannerKind.indiScanner ∧
    (∀ s : String, s ≠ "FS" → s ≠ "INDI" →
      create_scanner s = .error ("Unsupported scanner type : " ++ s)) ∧
    SCANNER_TYPE_INDI = "INDI" ∧
    (create_scanner : Except String ScannerKind) = .ok ScannerKind.indiScanner := by
  refine ⟨rfl, rfl, ?_, rfl, rfl⟩
  intro s h1 h2
  simp [create_scanner, SCANNER_TYPE_FILESYSTEM, SCANNER_TYPE_INDI, h1, h2]

/-- Witness for C10 at the concrete unsupported scanner type `"XYZ"`. -/
theorem create_scanner_cases_witness :
    ("XYZ" : String) ≠ "FS" ∧ ("XYZ" : String) ≠ "INDI" ∧
    create_scanner "XYZ" = .error ("Unsupported scanner type : " ++ "XYZ") :=
  ⟨by decide, by decide, create_scanner_cases.2.2.1 "XYZ" (by decide) (by decide)⟩

end ALS
